import Mathlib

/-!
Shallow embedding of the BlazeORM persistence and query engine
(`src/blazeorm`): unit of work, transaction manager, session
orchestration, identity-map backed `Session.get`, dirty-update
persistence, SQL compiler, chainable query specifications, the
performance tracker's N+1 heuristic, and the SQLite adapter's
parameter validation.  Model instances are identified by natural
numbers (reference identity), field and parameter values by a small
scalar type.  Python `set` objects are embedded as duplicate-free
lists with membership-guarded insertion; Python `dict` objects as
association lists with prepend-overwrite semantics.
-/

namespace BlazeORM

/-- Scalar database / parameter value (string or integer; `Option` at use
sites models Python `None`). -/
inductive Val where
  | str (s : String)
  | int (n : Int)
deriving DecidableEq, Repr

/-- Python `set.add`: insert if absent (`blazeorm` stores sets of model
instances; instances are identified here by `Nat` ids). -/
def sadd (s : List Nat) (x : Nat) : List Nat :=
  if x ∈ s then s else x :: s

/-- Python `set.discard`: remove all occurrences (none or one, since the
lists are maintained duplicate-free). -/
def sdel (s : List Nat) (x : Nat) : List Nat :=
  s.filter (fun y => y ≠ x)

/-- Association-list lookup (first match wins, mirroring a Python dict
together with `ains` below). -/
def alookup {α β : Type} [DecidableEq α] : List (α × β) → α → Option β
  | [], _ => none
  | (k, v) :: t, k' => if k' = k then some v else alookup t k'

/-- Association-list store, `d[k] = v`: prepend, so that `alookup` sees the
newest binding. -/
def ains {α β : Type} (l : List (α × β)) (k : α) (v : β) : List (α × β) :=
  (k, v) :: l

/-! ## Unit of work (`persistence/unit_of_work.py`) -/

/-- The three pending-instance sets of `UnitOfWork`. -/
structure UnitOfWork where
  new : List Nat
  dirty : List Nat
  deleted : List Nat
deriving DecidableEq, Repr

/-- `UnitOfWork()` constructor: three empty sets. -/
def UnitOfWork.empty : UnitOfWork := ⟨[], [], []⟩

/-- `UnitOfWork.register_new`: `self.new.add(instance)`. -/
def UnitOfWork.register_new (u : UnitOfWork) (i : Nat) : UnitOfWork :=
  { u with new := sadd u.new i }

/-- `UnitOfWork.register_dirty`: add to `dirty` unless the instance is in
`new`. -/
def UnitOfWork.register_dirty (u : UnitOfWork) (i : Nat) : UnitOfWork :=
  if i ∈ u.new then u else { u with dirty := sadd u.dirty i }

/-- `UnitOfWork.register_deleted`: discard from `new` and `dirty`, add to
`deleted`. -/
def UnitOfWork.register_deleted (u : UnitOfWork) (i : Nat) : UnitOfWork :=
  { new := sdel u.new i, dirty := sdel u.dirty i, deleted := sadd u.deleted i }

/-- `UnitOfWork.clear`: empty all three sets. -/
def UnitOfWork.clear (_ : UnitOfWork) : UnitOfWork := UnitOfWork.empty

/-- One registration call on the unit of work (the operations quantified
over in the invariant claims). -/
inductive RegOp where
  | regNew (i : Nat)
  | regDirty (i : Nat)
  | regDeleted (i : Nat)
deriving DecidableEq, Repr

/-- Apply one registration call. -/
def UnitOfWork.applyOp (u : UnitOfWork) : RegOp → UnitOfWork
  | .regNew i => u.register_new i
  | .regDirty i => u.register_dirty i
  | .regDeleted i => u.register_deleted i

/-- Apply a finite sequence of registration calls in order. -/
def UnitOfWork.applyOps (u : UnitOfWork) : List RegOp → UnitOfWork
  | [] => u
  | op :: t => (u.applyOp op).applyOps t

/-- Instance `i` belongs to at most one of the three sets of `u` (the
"never simultaneously in more than one conceptual state" invariant). -/
def UnitOfWork.atMostOne (u : UnitOfWork) (i : Nat) : Prop :=
  ¬(i ∈ u.new ∧ i ∈ u.dirty) ∧ ¬(i ∈ u.new ∧ i ∈ u.deleted) ∧
    ¬(i ∈ u.dirty ∧ i ∈ u.deleted)

instance (u : UnitOfWork) (i : Nat) : Decidable (u.atMostOne i) := by
  unfold UnitOfWork.atMostOne; infer_instance

/-! ## Transaction manager (`persistence/transaction.py`)

A frame is `none` for the root (native transaction) or `some n` for
savepoint `sp_n`.  The Python list appends/pops at the end; the Lean list
keeps the top of the stack at the head.  Adapter traffic is returned as a
list of `AdapterAction`s. -/

inductive AdapterAction where
  | beginNative
  | commitNative
  | rollbackNative
  | exec (sql : String)
deriving DecidableEq, Repr

inductive SessErr where
  | txNoActive
  | txNoSavepoints
  | validationFailed (i : Nat)
deriving DecidableEq, Repr

structure TxManager where
  stack : List (Option Nat)
  counter : Nat
  supportsSavepoints : Bool
deriving DecidableEq, Repr

/-- `TransactionManager.depth`. -/
def TxManager.depth (tm : TxManager) : Nat := tm.stack.length

/-- `TransactionManager.begin`: native BEGIN at depth 0, else a named
savepoint (failing when the dialect lacks savepoint support). -/
def TxManager.begin (tm : TxManager) :
    Except SessErr (TxManager × List AdapterAction) :=
  if tm.depth = 0 then
    .ok ({ tm with stack := none :: tm.stack }, [.beginNative])
  else if tm.supportsSavepoints = false then
    .error .txNoSavepoints
  else
    .ok ({ tm with stack := some tm.counter :: tm.stack, counter := tm.counter + 1 },
      [.exec ("SAVEPOINT sp_" ++ toString tm.counter)])

/-- `TransactionManager.commit`: error at depth 0; pop the top frame and
issue the native COMMIT or a `RELEASE SAVEPOINT`. -/
def TxManager.commit (tm : TxManager) :
    Except SessErr (TxManager × List AdapterAction) :=
  match tm.stack with
  | [] => .error .txNoActive
  | none :: rest => .ok ({ tm with stack := rest }, [.commitNative])
  | some n :: rest =>
      .ok ({ tm with stack := rest }, [.exec ("RELEASE SAVEPOINT sp_" ++ toString n)])

/-- `TransactionManager.rollback`: error at depth 0; pop the top frame and
issue the native ROLLBACK or `ROLLBACK TO` + `RELEASE`. -/
def TxManager.rollback (tm : TxManager) :
    Except SessErr (TxManager × List AdapterAction) :=
  match tm.stack with
  | [] => .error .txNoActive
  | none :: rest => .ok ({ tm with stack := rest }, [.rollbackNative])
  | some n :: rest =>
      .ok ({ tm with stack := rest },
        [.exec ("ROLLBACK TO SAVEPOINT sp_" ++ toString n),
         .exec ("RELEASE SAVEPOINT sp_" ++ toString n)])

/-! ## Session transaction orchestration (`persistence/session.py`)

The session state needed by the transaction-level claims: the unit of
work, the stack of unit-of-work snapshots, the transaction manager, the
identity-map contents (instance ids) and the set of ids whose
`is_dirty()` is true (used by `collect_dirty` during flush).  Validation
outcomes of `full_clean()` are supplied as an oracle `validOk`. -/

structure SessionA where
  uow : UnitOfWork
  snapshots : List (List Nat × List Nat × List Nat)
  tm : TxManager
  idmapValues : List Nat
  dirtyIds : List Nat
deriving DecidableEq, Repr

/-- `Session._snapshot_uow`: push copies of the three sets. -/
def SessionA.snapshotUow (s : SessionA) : SessionA :=
  { s with snapshots := (s.uow.new, s.uow.dirty, s.uow.deleted) :: s.snapshots }

/-- `Session._discard_uow_snapshot`: pop (no-op when empty). -/
def SessionA.discardUowSnapshot (s : SessionA) : SessionA :=
  { s with snapshots := s.snapshots.tail }

/-- `Session._restore_uow_snapshot`: clear when no snapshot, else pop and
restore the three sets. -/
def SessionA.restoreUowSnapshot (s : SessionA) : SessionA :=
  match s.snapshots with
  | [] => { s with uow := s.uow.clear }
  | (n, d, del) :: rest =>
      { s with uow := { new := n, dirty := d, deleted := del }, snapshots := rest }

/-- `Session.begin`: transaction-manager begin, then snapshot the unit of
work. -/
def SessionA.begin (s : SessionA) :
    Except SessErr (SessionA × List AdapterAction) := do
  let (tm', acts) ← s.tm.begin
  .ok (SessionA.snapshotUow { s with tm := tm' }, acts)

/-- `Session.rollback`: transaction-manager rollback (raising at depth 0),
then restore the matching snapshot. -/
def SessionA.rollback (s : SessionA) :
    Except SessErr (SessionA × List AdapterAction) := do
  let (tm', acts) ← s.tm.rollback
  .ok (SessionA.restoreUowSnapshot { s with tm := tm' }, acts)

/-- `Session.add` (autocommit off): `register_new`. -/
def SessionA.add (s : SessionA) (i : Nat) : SessionA :=
  { s with uow := s.uow.register_new i }

/-- `Session.delete` (autocommit off): `register_deleted`. -/
def SessionA.delete (s : SessionA) (i : Nat) : SessionA :=
  { s with uow := s.uow.register_deleted i }

/-- `Session.mark_dirty`: `register_dirty`. -/
def SessionA.markDirty (s : SessionA) (i : Nat) : SessionA :=
  { s with uow := s.uow.register_dirty i }

/-- Apply one session-level registration call. -/
def SessionA.applyReg (s : SessionA) : RegOp → SessionA
  | .regNew i => s.add i
  | .regDirty i => s.markDirty i
  | .regDeleted i => s.delete i

/-- Apply a sequence of session-level registration calls. -/
def SessionA.applyRegs (s : SessionA) : List RegOp → SessionA
  | [] => s
  | op :: t => (s.applyReg op).applyRegs t

/-- `UnitOfWork.collect_dirty(identity_map.values())`: promote identity-map
instances that are dirty and not in `new`. -/
def SessionA.collectDirty (s : SessionA) : SessionA :=
  { s with
    uow := s.idmapValues.foldl
      (fun u i => if i ∉ u.new ∧ i ∈ s.dirtyIds then u.register_dirty i else u)
      s.uow }

/-- Drain `uow.new` in order: `_persist_new` validates (oracle), inserts,
and re-adds the instance to the identity map; each drained id is
discarded from `new`. -/
def SessionA.drainNew (validOk : Nat → Bool) :
    List Nat → SessionA → Except SessErr SessionA
  | [], s => .ok s
  | i :: t, s =>
      if validOk i then
        SessionA.drainNew validOk t
          { s with uow := { s.uow with new := sdel s.uow.new i },
                   idmapValues := sadd s.idmapValues i }
      else .error (.validationFailed i)

/-- Drain `uow.dirty` in order: `_persist_dirty` validates (oracle) and
updates; each drained id is discarded from `dirty`. -/
def SessionA.drainDirty (validOk : Nat → Bool) :
    List Nat → SessionA → Except SessErr SessionA
  | [], s => .ok s
  | i :: t, s =>
      if validOk i then
        SessionA.drainDirty validOk t
          { s with uow := { s.uow with dirty := sdel s.uow.dirty i } }
      else .error (.validationFailed i)

/-- Drain `uow.deleted` in order: `_persist_deleted` deletes the row and
evicts the instance from the identity map. -/
def SessionA.drainDeleted : List Nat → SessionA → SessionA
  | [], s => s
  | i :: t, s =>
      SessionA.drainDeleted t
        { s with uow := { s.uow with deleted := sdel s.uow.deleted i },
                 idmapValues := sdel s.idmapValues i }

/-- `Session.flush`: `collect_dirty` over the identity map, then drain
`new`, `dirty`, `deleted` in that order. -/
def SessionA.flush (validOk : Nat → Bool) (s : SessionA) :
    Except SessErr SessionA := do
  let s := s.collectDirty
  let s ← SessionA.drainNew validOk s.uow.new s
  let s ← SessionA.drainDirty validOk s.uow.dirty s
  .ok (SessionA.drainDeleted s.uow.deleted s)

/-- `Session.commit`: when the frame stack is empty it first calls
`self.begin()` (it does not raise); then flush, transaction-manager
commit, snapshot discard, and — at depth 0 — `unit_of_work.clear()`. -/
def SessionA.commit (validOk : Nat → Bool) (s : SessionA) :
    Except SessErr (SessionA × List AdapterAction) := do
  let (s, acts0) ←
    if s.tm.depth = 0 then s.begin
    else (.ok (s, []) : Except SessErr (SessionA × List AdapterAction))
  let s ← s.flush validOk
  let (tm', acts1) ← s.tm.commit
  let s := SessionA.discardUowSnapshot { s with tm := tm' }
  let s := if tm'.depth = 0 then { s with uow := s.uow.clear } else s
  .ok (s, acts0 ++ acts1)

/-- A freshly constructed session on the SQLite dialect: empty unit of
work, no snapshots, empty frame stack, savepoint counter at 1. -/
def SessionA.fresh : SessionA :=
  { uow := UnitOfWork.empty, snapshots := [],
    tm := { stack := [], counter := 1, supportsSavepoints := true },
    idmapValues := [], dirtyIds := [] }

/-! ## `Session.get` and the identity map
(`persistence/session.py`, `persistence/identity_map.py`)

Model types are `Nat` ids; primary-key values are `Int`.  A row or cached
payload is reduced to the primary-key value it carries (`Option Int`,
`none` for a NULL primary-key column).  Instances are allocation indices:
`nextInst` counts objects constructed by the session, so two results name
the identical in-memory instance exactly when the indices are equal.
External collaborators are oracles: `meta` gives a model's primary-key
field name, `fieldExists` whether `_meta.get_field` succeeds, and `db` the
single row returned by `SELECT ... WHERE <column> = <value> LIMIT 1`. -/

structure GetState where
  idmap : List ((Nat × Int) × Nat)
  cache : List ((Nat × Int) × Option Int)
  nextInst : Nat
deriving DecidableEq, Repr

inductive GetErr where
  | badFilterCount
  | unknownField
deriving DecidableEq, Repr

/-- An executed single-row SELECT: (model type, filter column, bound
value). -/
abbrev SqlQuery := Nat × String × Int

/-- `Session._materialize`: identity-map-aware construction.  When the row
has a known primary key and the map already holds that key, the cached
instance is returned; otherwise a fresh instance is allocated, registered
in the identity map and written through to the second-level cache.  With
no usable primary key the instance is allocated but registered nowhere. -/
def materialize (meta : Nat → Option String) (st : GetState) (T : Nat)
    (payload : Option Int) : GetState × Nat :=
  match meta T, payload with
  | some _, some p =>
      match alookup st.idmap (T, p) with
      | some c => (st, c)
      | none =>
          ({ idmap := ains st.idmap (T, p) st.nextInst,
             cache := ains st.cache (T, p) (some p),
             nextInst := st.nextInst + 1 }, st.nextInst)
  | _, _ => ({ st with nextInst := st.nextInst + 1 }, st.nextInst)

/-- The compiled-SELECT fallback of `Session.get` (lines 175-191): resolve
the field (`KeyError` for unknown names), execute the single-row query,
and materialize the row if any. -/
def sessionGetQuery (meta : Nat → Option String) (fieldExists : Nat → String → Bool)
    (db : Nat → String → Int → Option (Option Int)) (st : GetState) (T : Nat)
    (fieldName : String) (value : Int) :
    GetState × List SqlQuery × Except GetErr (Option Nat) :=
  if fieldExists T fieldName then
    match db T fieldName value with
    | none => (st, [(T, fieldName, value)], .ok none)
    | some payload =>
        let r := materialize meta st T payload
        (r.1, [(T, fieldName, value)], .ok (some r.2))
  else (st, [], .error .unknownField)

/-- `Session.get(model, **filters)`: exactly one filter is required;
a primary-key filter first consults the identity map, then the
second-level cache (re-registering a cache hit into the identity map
without touching the database), and only then the database. -/
def sessionGet (meta : Nat → Option String) (fieldExists : Nat → String → Bool)
    (db : Nat → String → Int → Option (Option Int)) (st : GetState) (T : Nat)
    (filters : List (String × Int)) :
    GetState × List SqlQuery × Except GetErr (Option Nat) :=
  match filters with
  | [(fieldName, value)] =>
      match meta T with
      | some pkn =>
          if fieldName = pkn then
            match alookup st.idmap (T, value) with
            | some i => (st, [], .ok (some i))
            | none =>
                match alookup st.cache (T, value) with
                | some payload =>
                    let idmap' := match payload with
                      | some p => ains st.idmap (T, p) st.nextInst
                      | none => st.idmap
                    ({ st with idmap := idmap', nextInst := st.nextInst + 1 },
                      [], .ok (some st.nextInst))
                | none => sessionGetQuery meta fieldExists db st T fieldName value
          else sessionGetQuery meta fieldExists db st T fieldName value
      | none => sessionGetQuery meta fieldExists db st T fieldName value
  | _ => (st, [], .error .badFilterCount)

/-- Cache well-formedness: payloads are stored under their own primary-key
value (`_cache_instance` stores `to_dict()` under `instance.pk`). -/
def cacheWF (st : GetState) : Prop :=
  ∀ T k p, alookup st.cache (T, k) = some p → p = some k

/-- Database well-formedness: a row returned for
`WHERE <pk column> = <k>` carries primary-key value `k`. -/
def dbWF (meta : Nat → Option String)
    (db : Nat → String → Int → Option (Option Int)) : Prop :=
  ∀ T pkn k payload, meta T = some pkn → db T pkn k = some payload →
    payload = some k

/-! ## Dirty-instance persistence (`Session._persist_dirty`)

Field values are database scalars (`Option Val`; relation normalization
to a primary key is upstream of this representation).  `full_clean()`
outcomes come from the oracle `validOk`. -/

structure FieldMeta where
  name : String
  dbColumn : String
  primaryKey : Bool
deriving DecidableEq, Repr

structure InstanceD where
  fields : List FieldMeta
  current : List (String × Option Val)
  initial : List (String × Option Val)
deriving DecidableEq, Repr

/-- `getattr(instance, name)`: descriptor read of `_field_values`; a
missing entry reads as `None`. -/
def InstanceD.getattr (inst : InstanceD) (n : String) : Option Val :=
  (alookup inst.current n).getD none

/-- `instance._initial_state.get(name)`. -/
def InstanceD.initialVal (inst : InstanceD) (n : String) : Option Val :=
  (alookup inst.initial n).getD none

inductive PersistErr where
  | validationError
  | noPrimaryKey
  | missingPkValue
deriving DecidableEq, Repr

/-- `identifier.replace('"', '""')` on the character list. -/
def escapeQuotes : List Char → List Char
  | [] => []
  | c :: t => if c = '"' then '"' :: '"' :: escapeQuotes t else c :: escapeQuotes t

/-- SQLite `quote_identifier`: double internal quotes, wrap in quotes. -/
def sqliteQuote (ident : String) : String :=
  "\"" ++ String.mk (escapeQuotes ident.data) ++ "\""

/-- `Session._persist_dirty` on the SQLite dialect: validate, require a
primary key with a value, diff every non-primary-key field against the
initial snapshot, and return the UPDATE statement (with its parameters)
only when at least one column changed — `none` means no UPDATE was issued
to the adapter. -/
def persistDirty (validOk : InstanceD → Bool) (tableName : String)
    (inst : InstanceD) :
    Except PersistErr (Option (String × List (Option Val))) :=
  if validOk inst = false then .error .validationError else
  match inst.fields.find? (fun f => f.primaryKey) with
  | none => .error .noPrimaryKey
  | some pkf =>
      match inst.getattr pkf.name with
      | none => .error .missingPkValue
      | some pv =>
          let changed := inst.fields.filter
            (fun f => ¬f.primaryKey ∧ inst.getattr f.name ≠ inst.initialVal f.name)
          if changed = [] then .ok none
          else
            let setSql := String.intercalate ", "
              (changed.map (fun f => sqliteQuote f.dbColumn ++ " = ?"))
            let params := changed.map (fun f => inst.getattr f.name) ++ [some pv]
            .ok (some ("UPDATE " ++ sqliteQuote tableName ++ " SET " ++ setSql
              ++ " WHERE " ++ sqliteQuote pkf.dbColumn ++ " = ?", params))

/-! ## Dialect strategy (`dialects/base.py`, `dialects/sqlite.py`) -/

structure Dialect where
  quoteIdentifier : String → String
  formatTable : String → String
  limitClauseFn : Option Nat → Option Nat → String
  placeholder : String

/-- SQLite `limit_clause`: `LIMIT n`, with `LIMIT -1` inserted when only an
offset is present. -/
def sqliteLimitClause (limit offsetV : Option Nat) : String :=
  let parts :=
    (match limit with
     | some n => ["LIMIT " ++ toString n]
     | none => []) ++
    (match offsetV with
     | some n =>
         (match limit with
          | some _ => []
          | none => ["LIMIT -1"]) ++ ["OFFSET " ++ toString n]
     | none => [])
  String.intercalate " " parts

def sqliteDialect : Dialect :=
  { quoteIdentifier := sqliteQuote, formatTable := sqliteQuote,
    limitClauseFn := sqliteLimitClause, placeholder := "?" }

/-! ## Filter expressions (`query/expressions.py`)

A `Q` node holds children that are either nested `Q` nodes or
`(field_lookup, value)` leaves, a connector, and a negation flag. -/

mutual
inductive Q where
  | mk (children : List QChild) (connector : String) (negated : Bool)
inductive QChild where
  | qc (q : Q)
  | cond (fieldLookup : String) (value : Option Val)
end

def Q.children : Q → List QChild
  | .mk c _ _ => c

def Q.connector : Q → String
  | .mk _ c _ => c

def Q.negated : Q → Bool
  | .mk _ _ n => n

/-- `Q.is_empty`: no children. -/
def Q.isEmpty (q : Q) : Bool := q.children.isEmpty

/-- `Q(**lookups)`: an AND node over the lookup items. -/
def Q.ofLookups (lookups : List (String × Option Val)) : Q :=
  .mk (lookups.map fun l => .cond l.1 l.2) "AND" false

/-- `Q.__invert__`: clone with the negation flag flipped. -/
def Q.invert (q : Q) : Q := .mk q.children q.connector (!q.negated)

/-- `Q._combine`: a fresh node with both operands as children. -/
def Q.combine (a b : Q) (connector : String) : Q :=
  .mk [.qc a, .qc b] connector false

/-! ## SQL compiler (`query/compiler.py`)

The relation oracle `rel` resolves a `select_related` path to the related
model's metadata and the foreign-key column on the base table
(`_get_relation_field` / `_get_related_model`); `none` is an unresolved or
invalid path. -/

def LOOKUP_OPERATORS : List (String × String) :=
  [("exact", "="), ("iexact", "LIKE"), ("gt", ">"), ("gte", ">="),
   ("lt", "<"), ("lte", "<="), ("contains", "LIKE")]

inductive CompileErr where
  | unknownField (name : String)
  | nullLookup
  | unsupportedLookup (lookup : String)
  | attributeError
  | unresolvedRelation (path : String)
  | missingPrimaryKey
deriving DecidableEq, Repr

structure MetaC where
  tableName : String
  fields : List FieldMeta
deriving DecidableEq, Repr

/-- `_meta.get_field` for the compiler: first field with the given name. -/
def MetaC.findField (meta : MetaC) (n : String) : Option FieldMeta :=
  meta.fields.find? (fun f => f.name = n)

/-- Split at the first `__` occurrence (`str.split("__", 1)`). -/
def splitDunder : List Char → Option (List Char × List Char)
  | [] => none
  | '_' :: '_' :: t => some ([], t)
  | c :: t => (splitDunder t).map (fun p => (c :: p.1, p.2))

/-- `field_lookup.split("__", 1)` with fallback lookup `exact`. -/
def splitLookup (fieldLookup : String) : String × String :=
  match splitDunder fieldLookup.data with
  | none => (fieldLookup, "exact")
  | some p => (String.mk p.1, String.mk p.2)

/-- Python `f"%{value}%"`: stringify and wrap in wildcards. -/
def wrapContains : Val → Val
  | .str s => .str ("%" ++ s ++ "%")
  | .int n => .str ("%" ++ toString n ++ "%")

/-- `SQLCompiler._compile_lookup`. -/
def compileLookup (d : Dialect) (meta : MetaC) (fieldLookup : String)
    (value : Option Val) : Except CompileErr (String × List Val) :=
  let fl := splitLookup fieldLookup
  match meta.findField fl.1 with
  | none => .error (.unknownField fl.1)
  | some f =>
      let column := d.quoteIdentifier f.dbColumn
      match value with
      | none =>
          if fl.2 ≠ "exact" then .error .nullLookup
          else .ok (column ++ " IS NULL", [])
      | some v =>
          match alookup LOOKUP_OPERATORS fl.2 with
          | none => .error (.unsupportedLookup fl.2)
          | some op =>
              let v := if fl.2 = "contains" then wrapContains v else v
              if fl.2 = "iexact" then
                match v with
                | .str s => .ok (column ++ " " ++ op ++ " " ++ d.placeholder,
                    [.str s.toLower])
                | .int _ => .error .attributeError
              else .ok (column ++ " " ++ op ++ " " ++ d.placeholder, [v])

mutual
/-- `SQLCompiler._compile_q`: join the compiled children with the
connector, wrapping nested nodes in parentheses and the whole clause in
`NOT (...)` when negated. -/
def compileQ (d : Dialect) (meta : MetaC) : Q → Except CompileErr (String × List Val)
  | .mk children connector negated => do
      let r ← compileChildren d meta children
      if r.1.isEmpty then .ok ("", [])
      else
        let sql := String.intercalate (" " ++ connector ++ " ") r.1
        .ok (if negated then "NOT (" ++ sql ++ ")" else sql, r.2)

/-- The child loop of `_compile_q`: nested nodes contribute a
parenthesized clause only when non-empty; leaves always contribute. -/
def compileChildren (d : Dialect) (meta : MetaC) :
    List QChild → Except CompileErr (List String × List Val)
  | [] => .ok ([], [])
  | .qc q :: t => do
      let c ← compileQ d meta q
      let r ← compileChildren d meta t
      if c.1 = "" then .ok r
      else .ok (("(" ++ c.1 ++ ")") :: r.1, c.2 ++ r.2)
  | .cond fl v :: t => do
      let c ← compileLookup d meta fl v
      let r ← compileChildren d meta t
      .ok (c.1 :: r.1, c.2 ++ r.2)
end

/-- `SQLCompiler._compile_ordering`: leading `-` means descending. -/
def compileOrdering (d : Dialect) (meta : MetaC) (fieldName : String) :
    Except CompileErr String :=
  let descending := match fieldName.data with
    | '-' :: _ => true
    | _ => false
  let name := if descending then String.mk fieldName.data.tail else fieldName
  match meta.findField name with
  | none => .error (.unknownField name)
  | some f =>
      let clause := d.quoteIdentifier f.dbColumn
      .ok (if descending then clause ++ " DESC" else clause)

def orderingList (d : Dialect) (meta : MetaC) :
    List String → Except CompileErr (List String)
  | [] => .ok []
  | n :: t => do
      let c ← compileOrdering d meta n
      let r ← orderingList d meta t
      .ok (c :: r)

/-- `SQLCompiler._qualified`. -/
def qualified (d : Dialect) (table : String) (column : String) : String :=
  table ++ "." ++ d.quoteIdentifier column

/-- `SQLCompiler._build_select_list`: base-table columns qualified with
the formatted table name, then for each `select_related` path the related
columns aliased as `<path>__<column>`. -/
def buildSelectList (d : Dialect) (meta : MetaC)
    (rel : String → Option (MetaC × String)) :
    List String → Except CompileErr (List String)
  | [] => .ok []
  | path :: t =>
      match rel path with
      | none => .error (.unresolvedRelation path)
      | some rm => do
          let table := d.formatTable rm.1.tableName
          let cols := rm.1.fields.map (fun f =>
            qualified d table f.dbColumn ++ " AS "
              ++ d.quoteIdentifier (path ++ "__" ++ f.name))
          let r ← buildSelectList d meta rel t
          .ok (cols ++ r)

/-- `SQLCompiler._build_select_related_joins`: one LEFT JOIN per path,
foreign-key column on the base table against the related primary key. -/
def buildJoins (d : Dialect) (meta : MetaC)
    (rel : String → Option (MetaC × String)) :
    List String → Except CompileErr (List String)
  | [] => .ok []
  | path :: t =>
      match rel path with
      | none => .error (.unresolvedRelation path)
      | some rm =>
          match rm.1.fields.find? (fun f => f.primaryKey) with
          | none => .error .missingPrimaryKey
          | some pkf => do
              let baseTable := d.formatTable meta.tableName
              let remoteTable := d.formatTable rm.1.tableName
              let j := "LEFT JOIN " ++ remoteTable ++ " ON "
                ++ qualified d baseTable rm.2 ++ " = "
                ++ qualified d remoteTable pkf.dbColumn
              let r ← buildJoins d meta rel t
              .ok (j :: r)

/-- `SQLCompiler.compile`: select list, FROM, joins, WHERE, ORDER BY and
the dialect's limit clause, joined with single spaces. -/
def compile (d : Dialect) (meta : MetaC)
    (rel : String → Option (MetaC × String)) (whereQ : Q)
    (ordering : List String) (limit offsetV : Option Nat)
    (selectRelated : List String) : Except CompileErr (String × List Val) := do
  let baseTable := d.formatTable meta.tableName
  let baseCols := meta.fields.map (fun f => qualified d baseTable f.dbColumn)
  let relCols ← buildSelectList d meta rel selectRelated
  let selectList := String.intercalate ", " (baseCols ++ relCols)
  let joins ← buildJoins d meta rel selectRelated
  let sqlParts := ["SELECT " ++ selectList, "FROM", baseTable] ++ joins
  let wr ←
    if !whereQ.isEmpty then do
      let w ← compileQ d meta whereQ
      if w.1 ≠ "" then pure (["WHERE", w.1], w.2)
      else pure (([] : List String), ([] : List Val))
    else pure (([] : List String), ([] : List Val))
  let sqlParts := sqlParts ++ wr.1
  let sqlParts ←
    if !ordering.isEmpty then do
      let os ← orderingList d meta ordering
      pure (sqlParts ++ ["ORDER BY", String.intercalate ", " os])
    else pure sqlParts
  let lc := d.limitClauseFn limit offsetV
  let sqlParts := if lc ≠ "" then sqlParts ++ [lc] else sqlParts
  .ok (String.intercalate " " sqlParts, wr.2)

/-! ## QuerySet (`query/queryset.py`)

A query specification is the value state a `QuerySet` object carries
(model, dialect and bound session are fixed parameters of `toSql`).
Objects live in an allocation store (`List QSpec`, index = object
identity): every chain method reads its receiver and appends a fresh
clone, exactly as `_clone` constructs a new `QuerySet`. -/

structure QSpec where
  whereQ : Q
  ordering : List String
  limitV : Option Nat
  offsetV : Option Nat
  selectRelated : List String
  prefetchRelated : List String

/-- `QuerySet.__init__` defaults: empty `Q()`, no ordering, no bounds. -/
def QSpec.default : QSpec :=
  { whereQ := .mk [] "AND" false, ordering := [], limitV := none,
    offsetV := none, selectRelated := [], prefetchRelated := [] }

/-- `QuerySet._add_q`: the new `Q` alone when the current tree is empty,
else the AND-combination. -/
def QSpec.addQ (s : QSpec) (q : Q) : Q :=
  if s.whereQ.isEmpty then q else s.whereQ.combine q "AND"

/-- `dict.fromkeys` de-duplication keeping first occurrences. -/
def dedupKeepFirst : List String → List String
  | [] => []
  | h :: t => h :: (dedupKeepFirst t).filter (fun x => x ≠ h)

/-- `QuerySet.to_sql`. -/
def QSpec.toSql (d : Dialect) (meta : MetaC)
    (rel : String → Option (MetaC × String)) (s : QSpec) :
    Except CompileErr (String × List Val) :=
  compile d meta rel s.whereQ s.ordering s.limitV s.offsetV s.selectRelated

/-- One chainable `QuerySet` method with its arguments. -/
inductive ChainOp where
  | filterOp (lookups : List (String × Option Val))
  | excludeOp (lookups : List (String × Option Val))
  | whereOp (q : Q)
  | orderByOp (fields : List String)
  | limitOp (n : Nat)
  | offsetOp (n : Nat)
  | selectRelatedOp (fields : List String)
  | prefetchRelatedOp (fields : List String)

inductive ChainErr where
  | valueError
  | invalidReceiver
deriving DecidableEq, Repr

/-- The new specification a chain method computes from its receiver
(`filter`/`exclude`/`where` go through `_add_q`; `select_related` and
`prefetch_related` reject empty argument lists and de-duplicate the
combined path tuple; the rest override one component). -/
def chainSpec (s : QSpec) : ChainOp → Except ChainErr QSpec
  | .filterOp lookups => .ok { s with whereQ := s.addQ (Q.ofLookups lookups) }
  | .excludeOp lookups => .ok { s with whereQ := s.addQ (Q.ofLookups lookups).invert }
  | .whereOp q => .ok { s with whereQ := s.addQ q }
  | .orderByOp fields => .ok { s with ordering := fields }
  | .limitOp n => .ok { s with limitV := some n }
  | .offsetOp n => .ok { s with offsetV := some n }
  | .selectRelatedOp fields =>
      if fields = [] then .error .valueError
      else .ok { s with selectRelated := dedupKeepFirst (s.selectRelated ++ fields) }
  | .prefetchRelatedOp fields =>
      if fields = [] then .error .valueError
      else .ok { s with prefetchRelated := dedupKeepFirst (s.prefetchRelated ++ fields) }

/-- Run one chain method on object `i` of the store: read the receiver,
compute the clone, append it as a fresh object, return its index. -/
def applyChain (store : List QSpec) (i : Nat) (op : ChainOp) :
    Except ChainErr (List QSpec × Nat) :=
  match store[i]? with
  | none => .error .invalidReceiver
  | some s => do
      let s' ← chainSpec s op
      .ok (store ++ [s'], store.length)

/-! ## Performance tracker (`utils/performance.py`)

`total_ms` (floating-point accumulation) is not represented; the N+1
heuristic reads only the execution count, the distinct-fingerprint set
and the reported-statements set. -/

structure QueryStat where
  count : Nat
  fingerprints : List String
  samples : List String
deriving DecidableEq, Repr

structure Tracker where
  threshold : Nat
  sampleSize : Nat
  stats : List (String × QueryStat)
  reported : List String
deriving DecidableEq, Repr

/-- Whitespace split of a character list (possibly empty chunks). -/
def splitWhitespace : List Char → List (List Char)
  | [] => []
  | c :: t =>
      let ws := splitWhitespace t
      if c.isWhitespace then [] :: ws
      else match ws with
        | [] => [[c]]
        | w :: rest => (c :: w) :: rest

/-- `PerformanceTracker._normalize_sql`: `" ".join(sql.strip().split())`,
collapsing whitespace runs (Python `split()` drops empty chunks). -/
def normalizeSql (sql : String) : String :=
  String.intercalate " "
    (((splitWhitespace sql.data).filter (fun w => w ≠ [])).map String.mk)

/-- Rendering of one bound parameter inside a fingerprint (stand-in for
Python `repr`). -/
def valFingerprint : Val → String
  | .str s => "s:" ++ s
  | .int n => "i:" ++ toString n

/-- `PerformanceTracker._fingerprint`: empty parameter lists fingerprint
as the empty string (and are never counted as distinct). -/
def fingerprint (params : List Val) : String :=
  if params = [] then ""
  else "(" ++ String.intercalate ", " (params.map valFingerprint) ++ ")"

/-- `QueryStat.record`: bump the count; add a non-empty, unseen
fingerprint, sampling up to `sample_limit`. -/
def QueryStat.record (stat : QueryStat) (fp : String) (sampleLimit : Nat) :
    QueryStat :=
  let stat := { stat with count := stat.count + 1 }
  if fp ≠ "" ∧ fp ∉ stat.fingerprints then
    let newSamples := if stat.samples.length < sampleLimit
      then stat.samples ++ [fp] else stat.samples
    { stat with fingerprints := fp :: stat.fingerprints, samples := newSamples }
  else stat

/-- `PerformanceTracker._should_report`: count at threshold, at least two
distinct fingerprints, not yet reported for this SQL text. -/
def Tracker.shouldReport (t : Tracker) (ns : String) (stat : QueryStat) : Bool :=
  if stat.count < t.threshold then false
  else if stat.fingerprints.length < 2 then false
  else if ns ∈ t.reported then false
  else true

/-- `PerformanceTracker.record`: update the per-SQL stat and report at
most once per SQL text (the `Bool` is whether a "potential N+1" report
was emitted by this call). -/
def Tracker.record (t : Tracker) (sql : String) (params : List Val) :
    Tracker × Bool :=
  let ns := normalizeSql sql
  let fp := fingerprint params
  let stat := (alookup t.stats ns).getD { count := 0, fingerprints := [], samples := [] }
  let stat := stat.record fp t.sampleSize
  let t := { t with stats := ains t.stats ns stat }
  if t.shouldReport ns stat then ({ t with reported := ns :: t.reported }, true)
  else (t, false)

/-- Fold `record` over a call sequence, counting emitted reports. -/
def Tracker.runRecords (t : Tracker) : List (String × List Val) → Tracker × Nat
  | [] => (t, 0)
  | (sql, params) :: rest =>
      let r := t.record sql params
      let r' := r.1.runRecords rest
      (r'.1, (if r.2 then 1 else 0) + r'.2)

/-- A fresh tracker (`n_plus_one_threshold=5, sample_size=5` defaults). -/
def Tracker.fresh (threshold sampleSize : Nat) : Tracker :=
  { threshold := threshold, sampleSize := sampleSize, stats := [], reported := [] }

/-! ## SQLite adapter parameter validation (`adapters/sqlite.py`) -/

inductive AdapterErr where
  | noPlaceholders
  | countMismatch (expected got : Nat)
deriving DecidableEq, Repr

/-- `SQLiteAdapter._count_placeholders`: `sql.count("?")`. -/
def countPlaceholders (sql : String) : Nat :=
  (sql.toList.filter (fun c => c = '?')).length

/-- `SQLiteAdapter._validate_params`: returns early (no check) when no
parameters are supplied; otherwise rejects statements without
placeholders and placeholder/parameter count mismatches. -/
def validateParams (sql : String) (params : List Val) : Option AdapterErr :=
  let pc := countPlaceholders sql
  if params = [] then none
  else if pc = 0 then some .noPlaceholders
  else if pc ≠ params.length then some (.countMismatch pc params.length)
  else none

/-- `SQLiteAdapter.execute`: validate, then dispatch to the backend
cursor; `.ok` is the dispatched statement with its parameters. -/
def adapterExecute (sql : String) (params : List Val) :
    Except AdapterErr (String × List Val) :=
  match validateParams sql params with
  | some e => .error e
  | none => .ok (sql, params)

/-! ## Concrete fixtures -/

/-- The `(id, name, age)` model of the spec scenario (table `user`, as in
the repository's own tests). -/
def metaUser : MetaC :=
  { tableName := "user",
    fields := [{ name := "id", dbColumn := "id", primaryKey := true },
               { name := "name", dbColumn := "name", primaryKey := false },
               { name := "age", dbColumn := "age", primaryKey := false }] }

/-- No resolvable relations (the fixture model declares none). -/
def relNone : String → Option (MetaC × String) := fun _ => none

/-- Validation oracle in which every instance passes `full_clean()`. -/
def allValid : Nat → Bool := fun _ => true

/-- Validation oracle for `persistDirty` in which every instance passes. -/
def allValidD : InstanceD → Bool := fun _ => true

/-- A `_persist_dirty` outcome that issued an UPDATE to the adapter. -/
def issuesUpdate (r : Except PersistErr (Option (String × List (Option Val)))) : Prop :=
  ∃ u, r = .ok (some u)

/-- Metadata oracle: every model type's primary-key field is `id`. -/
def metaOracleId : Nat → Option String := fun _ => some "id"

/-- Field oracle: `_meta.get_field` succeeds for every name. -/
def fieldExistsAll : Nat → String → Bool := fun _ _ => true

/-- Database oracle: `WHERE <col> = <k>` always finds a row whose
primary-key value is `k`. -/
def dbEcho : Nat → String → Int → Option (Option Int) := fun _ _ k => some (some k)

/-- A session's empty materialization state. -/
def emptyGetState : GetState := { idmap := [], cache := [], nextInst := 0 }

/-- The specification produced by `QuerySet(User).filter(name="Alice")`
(what `chainSpec` computes from the default specification). -/
def qsFilterNameAlice : QSpec :=
  { QSpec.default with
    whereQ := QSpec.default.addQ (Q.ofLookups [("name", some (.str "Alice"))]) }

/-- A session with one open outer frame and one pending registration
(instance 7 in `new`), as after `outer.begin(); session.add(obj)`. -/
def sessionOuterOpen : SessionA :=
  { uow := { new := [7], dirty := [], deleted := [] },
    snapshots := [([7], [], [])],
    tm := { stack := [none], counter := 1, supportsSavepoints := true },
    idmapValues := [], dirtyIds := [] }

/-- The materialization state after one successful
`get(T=3, id=42)` on an empty session against `dbEcho`. -/
def getStateAfter42 : GetState :=
  { idmap := [((3, 42), 0)], cache := [((3, 42), some 42)], nextInst := 1 }

/-! # Theorems -/

/-- C6: the claim's at-most-one-set invariant fails on the code: from an
empty unit of work, `register_deleted(0)` followed by `register_new(0)`
leaves instance 0 in both `new` and `deleted` (`register_new` does not
purge `deleted`). -/
theorem uow_at_most_one_fails :
    ¬ (UnitOfWork.applyOps UnitOfWork.empty
        [.regDeleted 0, .regNew 0]).atMostOne 0 := by
  decide

/-- C6 (amended): registering a delete removes the instance from `new`
and `dirty` first, so immediately after any `register_deleted(i)` call —
whatever the prior registration history — instance `i` is a member of
`deleted` only; the at-most-one-set invariant holds at that point for
`i`, though a later `register_new`/`register_dirty` can break it. -/
theorem register_deleted_wins (u : UnitOfWork) (i : Nat) :
    i ∉ (u.register_deleted i).new ∧ i ∉ (u.register_deleted i).dirty ∧
      i ∈ (u.register_deleted i).deleted ∧ (u.register_deleted i).atMostOne i := by
  have hnew : i ∉ (u.register_deleted i).new := by
    simp [UnitOfWork.register_deleted, sdel, List.mem_filter]
  have hdirty : i ∉ (u.register_deleted i).dirty := by
    simp [UnitOfWork.register_deleted, sdel, List.mem_filter]
  have hdel : i ∈ (u.register_deleted i).deleted := by
    simp only [UnitOfWork.register_deleted, sadd]
    split
    · assumption
    · exact List.mem_cons_self i _
  exact ⟨hnew, hdirty, hdel,
    fun h => absurd h.1 hnew, fun h => absurd h.1 hnew, fun h => absurd h.1 hdirty⟩

/-- C9: the claim is false for zero supplied parameters: a statement with
one placeholder and an empty parameter list passes `_validate_params`
(which returns early when `params` is falsy) and is dispatched to the
backend instead of raising before dispatch. -/
theorem execute_empty_params_dispatched :
    countPlaceholders "SELECT name FROM t WHERE id = ?" = 1 ∧
    adapterExecute "SELECT name FROM t WHERE id = ?" [] =
      .ok ("SELECT name FROM t WHERE id = ?", []) := by
  constructor
  · decide
  · rfl

/-- C9 (amended): whenever at least one parameter is supplied and the
supplied count differs from the placeholder count, `execute` raises an
execution error before the statement is dispatched to the backend; with
zero supplied parameters the statement is dispatched unvalidated. -/
theorem execute_mismatch_rejected (sql : String) (params : List Val)
    (hne : params ≠ [])
    (hmm : countPlaceholders sql ≠ params.length) :
    ∃ e, adapterExecute sql params = .error e := by
  by_cases h0 : countPlaceholders sql = 0
  · exact ⟨.noPlaceholders, by simp [adapterExecute, validateParams, hne, h0]⟩
  · exact ⟨.countMismatch (countPlaceholders sql) params.length,
      by simp [adapterExecute, validateParams, hne, h0, hmm]⟩

/-- C9 witness: two placeholders against one parameter is rejected. -/
theorem execute_mismatch_rejected_witness :
    ∃ e, adapterExecute "SELECT a FROM t WHERE b = ? AND c = ?" [Val.int 1] =
      .error e :=
  execute_mismatch_rejected _ _ (by decide) (by decide)

/-- C5: the claim's expected SQL is wrong on the code: the compiled
select list is table-qualified, so `filter(name="Alice")` on the
`(id, name, age)` model does not compile to the claimed
`SELECT "id", "name", "age" FROM "user" WHERE "name" = ?`. -/
theorem filter_name_not_unqualified :
    chainSpec QSpec.default (.filterOp [("name", some (.str "Alice"))]) =
      .ok qsFilterNameAlice ∧
    qsFilterNameAlice.toSql sqliteDialect metaUser relNone ≠
      .ok ("SELECT \"id\", \"name\", \"age\" FROM \"user\" WHERE \"name\" = ?",
        [.str "Alice"]) := by
  refine ⟨rfl, ?_⟩
  rw [show qsFilterNameAlice.toSql sqliteDialect metaUser relNone =
    .ok ("SELECT \"user\".\"id\", \"user\".\"name\", \"user\".\"age\" FROM \"user\" WHERE \"name\" = ?",
      [.str "Alice"]) from rfl]
  simp only [ne_eq, Except.ok.injEq, Prod.mk.injEq]
  decide

/-- C5 (amended): `filter(name="Alice")` on the `(id, name, age)` model
compiles exactly to
`SELECT "user"."id", "user"."name", "user"."age" FROM "user" WHERE "name" = ?`
— select-list columns quoted and table-qualified, the WHERE column
unqualified — with parameter list `["Alice"]`. -/
theorem filter_name_compiles_qualified :
    chainSpec QSpec.default (.filterOp [("name", some (.str "Alice"))]) =
      .ok qsFilterNameAlice ∧
    qsFilterNameAlice.toSql sqliteDialect metaUser relNone =
      .ok ("SELECT \"user\".\"id\", \"user\".\"name\", \"user\".\"age\" FROM \"user\" WHERE \"name\" = ?",
        [.str "Alice"]) :=
  ⟨rfl, rfl⟩

/-- C10: `Session.get` with a filter count other than one returns the
`ValueError` immediately: the state is unchanged and no SQL is
executed. -/
theorem get_requires_one_filter (meta : Nat → Option String)
    (fieldExists : Nat → String → Bool)
    (db : Nat → String → Int → Option (Option Int)) (st : GetState) (T : Nat)
    (filters : List (String × Int)) (h : filters.length ≠ 1) :
    sessionGet meta fieldExists db st T filters =
      (st, [], .error .badFilterCount) := by
  match filters with
  | [] => rfl
  | [x] => exact absurd rfl h
  | a :: b :: t => rfl

/-- C10 witness: zero filters and two filters both fail fast. -/
theorem get_requires_one_filter_witness :
    sessionGet metaOracleId fieldExistsAll dbEcho emptyGetState 0 [] =
      (emptyGetState, [], .error .badFilterCount) ∧
    sessionGet metaOracleId fieldExistsAll dbEcho emptyGetState 0
        [("id", 1), ("name", 2)] =
      (emptyGetState, [], .error .badFilterCount) :=
  ⟨get_requires_one_filter _ _ _ _ _ _ (by decide),
   get_requires_one_filter _ _ _ _ _ _ (by decide)⟩

/-- Reduction of the `Except` monad's bind on a success value. -/
theorem except_bind_ok {ε α β : Type} (a : α) (f : α → Except ε β) :
    (Except.ok a : Except ε α) >>= f = f a := rfl

/-- Reduction of the `Except` monad's bind on an error value. -/
theorem except_bind_error {ε α β : Type} (e : ε) (f : α → Except ε β) :
    (Except.error e : Except ε α) >>= f = Except.error e := rfl

/-- Draining `new` with an all-passing validator always succeeds and
leaves the transaction manager and snapshot stack untouched. -/
theorem drainNew_allValid_ok (l : List Nat) (s : SessionA) :
    ∃ s', SessionA.drainNew allValid l s = .ok s' ∧ s'.tm = s.tm ∧
      s'.snapshots = s.snapshots := by
  induction l generalizing s with
  | nil => exact ⟨s, rfl, rfl, rfl⟩
  | cons i t ih =>
      obtain ⟨s', h1, h2, h3⟩ := ih
        { s with uow := { s.uow with new := sdel s.uow.new i },
                 idmapValues := sadd s.idmapValues i }
      exact ⟨s', h1, h2, h3⟩

/-- Draining `dirty` with an all-passing validator always succeeds and
leaves the transaction manager and snapshot stack untouched. -/
theorem drainDirty_allValid_ok (l : List Nat) (s : SessionA) :
    ∃ s', SessionA.drainDirty allValid l s = .ok s' ∧ s'.tm = s.tm ∧
      s'.snapshots = s.snapshots := by
  induction l generalizing s with
  | nil => exact ⟨s, rfl, rfl, rfl⟩
  | cons i t ih =>
      obtain ⟨s', h1, h2, h3⟩ := ih
        { s with uow := { s.uow with dirty := sdel s.uow.dirty i } }
      exact ⟨s', h1, h2, h3⟩

/-- Draining `deleted` leaves the transaction manager and snapshot stack
untouched. -/
theorem drainDeleted_tm (l : List Nat) (s : SessionA) :
    (SessionA.drainDeleted l s).tm = s.tm ∧
      (SessionA.drainDeleted l s).snapshots = s.snapshots := by
  induction l generalizing s with
  | nil => exact ⟨rfl, rfl⟩
  | cons i t ih =>
      exact ih { s with uow := { s.uow with deleted := sdel s.uow.deleted i },
                        idmapValues := sdel s.idmapValues i }

/-- `flush` with an all-passing validator always succeeds and leaves the
transaction manager and snapshot stack untouched. -/
theorem flush_allValid_ok (s : SessionA) :
    ∃ s', s.flush allValid = .ok s' ∧ s'.tm = s.tm ∧
      s'.snapshots = s.snapshots := by
  obtain ⟨s1, h1, htm1, hsn1⟩ := drainNew_allValid_ok s.collectDirty.uow.new s.collectDirty
  obtain ⟨s2, h2, htm2, hsn2⟩ := drainDirty_allValid_ok s1.uow.dirty s1
  obtain ⟨htm3, hsn3⟩ := drainDeleted_tm s2.uow.deleted s2
  refine ⟨SessionA.drainDeleted s2.uow.deleted s2, ?_, ?_, ?_⟩
  · simp only [SessionA.flush, h1, h2, except_bind_ok]
  · rw [htm3, htm2, htm1]; rfl
  · rw [hsn3, hsn2, hsn1]; rfl

/-- C3: the claim is false for `Session.commit`: on a session with an
empty frame stack, `commit()` does not raise — it implicitly opens a
frame (`self.begin()`) and commits it, issuing native BEGIN and native
COMMIT to the adapter. -/
theorem commit_empty_stack_succeeds :
    SessionA.fresh.tm.depth = 0 ∧
    SessionA.commit allValid SessionA.fresh =
      .ok (SessionA.fresh, [.beginNative, .commitNative]) := by
  constructor
  · rfl
  · rfl

/-- C3 (amended): with an empty transaction-frame stack,
`Session.rollback()` and the transaction manager's `commit()` and
`rollback()` all raise the transaction error (`No active transaction`),
none retried or converted; `Session.commit()`, however, does not raise a
transaction error — it first opens a frame via `begin()` and then
commits it. -/
theorem empty_stack_transaction_errors (s : SessionA) (h : s.tm.depth = 0) :
    s.rollback = .error .txNoActive ∧
    s.tm.commit = .error .txNoActive ∧
    s.tm.rollback = .error .txNoActive ∧
    ∃ s' acts, SessionA.commit allValid s = .ok (s', acts) := by
  have hs : s.tm.stack = [] := List.length_eq_zero.mp h
  have hroll : s.tm.rollback = .error .txNoActive := by
    simp only [TxManager.rollback, hs]
  refine ⟨?_, ?_, hroll, ?_⟩
  · simp only [SessionA.rollback, hroll, except_bind_error]
  · simp only [TxManager.commit, hs]
  · have hb : s.begin =
        .ok (SessionA.snapshotUow
          { s with tm := { s.tm with stack := [none] } }, [.beginNative]) := by
      simp only [SessionA.begin, TxManager.begin, h, hs, except_bind_ok, reduceIte]
    obtain ⟨s2, hf, htm, _⟩ := flush_allValid_ok
      (SessionA.snapshotUow { s with tm := { s.tm with stack := [none] } })
    have hcommit : s2.tm.commit =
        .ok ({ s2.tm with stack := [] }, [.commitNative]) := by
      rw [htm]
      simp only [TxManager.commit, SessionA.snapshotUow]
    refine ⟨{ SessionA.discardUowSnapshot
        { s2 with tm := { s2.tm with stack := [] } } with
        uow := UnitOfWork.empty },
      [.beginNative, .commitNative], ?_⟩
    simp only [SessionA.commit, h, hs, hb, hf, hcommit, except_bind_ok,
      TxManager.depth, List.length_nil, reduceIte, UnitOfWork.clear,
      List.cons_append, List.nil_append]

/-- C3 (amended) witness: the fresh session has depth 0, both
transaction-manager operations and session rollback raise, and session
commit succeeds. -/
theorem empty_stack_transaction_errors_witness :
    SessionA.fresh.rollback = .error .txNoActive ∧
    SessionA.fresh.tm.commit = .error .txNoActive ∧
    SessionA.fresh.tm.rollback = .error .txNoActive ∧
    ∃ s' acts, SessionA.commit allValid SessionA.fresh = .ok (s', acts) :=
  empty_stack_transaction_errors SessionA.fresh (by decide)

/-- C4: when every tracked field of a dirty-registered instance equals
its initial snapshot, `_persist_dirty` computes an empty changed-column
list and returns before issuing any UPDATE to the adapter (regardless of
the validation outcome). -/
theorem unchanged_dirty_issues_no_update (validOk : InstanceD → Bool)
    (tableName : String) (inst : InstanceD)
    (h : ∀ f ∈ inst.fields, inst.getattr f.name = inst.initialVal f.name) :
    ¬ issuesUpdate (persistDirty validOk tableName inst) := by
  rintro ⟨u, hu⟩
  have hch : inst.fields.filter
      (fun f => ¬f.primaryKey ∧ inst.getattr f.name ≠ inst.initialVal f.name) = [] := by
    rw [List.filter_eq_nil_iff]
    intro f hf
    simp [h f hf]
  unfold persistDirty at hu
  split at hu
  · cases hu
  · split at hu
    · cases hu
    · split at hu
      · cases hu
      · rw [hch] at hu
        simp at hu

/-- C4 witness: a persistent `(id, name, age)` instance whose current
values equal the snapshot produces no UPDATE. -/
theorem unchanged_dirty_issues_no_update_witness :
    ¬ issuesUpdate (persistDirty allValidD "user"
      { fields := metaUser.fields,
        current := [("id", some (.int 1)), ("name", some (.str "A")),
          ("age", some (.int 3))],
        initial := [("id", some (.int 1)), ("name", some (.str "A")),
          ("age", some (.int 3))] }) :=
  unchanged_dirty_issues_no_update _ _ _ (by decide)

/-- C8: every chain method, on success, allocates a fresh specification
object (a new index, never the receiver's), leaves the receiver's stored
specification unchanged, and therefore leaves the receiver's `to_sql()`
output identical before and after the call. -/
theorem chain_methods_pure (store : List QSpec) (i : Nat) (op : ChainOp)
    (store' : List QSpec) (j : Nat)
    (h : applyChain store i op = .ok (store', j)) :
    j = store.length ∧ j ≠ i ∧ store'[i]? = store[i]? ∧
      ∀ d meta rel, (store'[i]?).map (QSpec.toSql d meta rel) =
        (store[i]?).map (QSpec.toSql d meta rel) := by
  cases hs : store[i]? with
  | none => simp only [applyChain, hs, reduceCtorEq] at h
  | some s =>
      cases hcs : chainSpec s op with
      | error e =>
          simp only [applyChain, hs, hcs, except_bind_error, reduceCtorEq] at h
      | ok s' =>
          have hlt : i < store.length := by
            rcases List.getElem?_eq_some.mp hs with ⟨hl, _⟩
            exact hl
          simp only [applyChain, hs, hcs, except_bind_ok, Except.ok.injEq,
            Prod.mk.injEq] at h
          obtain ⟨hst, hj⟩ := h
          have hkeep : store'[i]? = some s := by
            rw [← hst, List.getElem?_append_left hlt, hs]
          exact ⟨hj.symm, by omega, hkeep, fun d meta rel => by rw [hkeep]⟩

/-- C8 witness: `order_by("-age")` on a one-object store allocates object
1 and leaves object 0 untouched. -/
theorem chain_methods_pure_witness :
    (1 : Nat) = [QSpec.default].length ∧ (1 : Nat) ≠ 0 ∧
    ([QSpec.default, { QSpec.default with ordering := ["-age"] }][0]? =
      [QSpec.default][0]?) ∧
    ∀ d meta rel,
      (([QSpec.default, { QSpec.default with ordering := ["-age"] }][0]?).map
        (QSpec.toSql d meta rel)) =
      (([QSpec.default][0]?).map (QSpec.toSql d meta rel)) :=
  chain_methods_pure [QSpec.default] 0 (.orderByOp ["-age"])
    [QSpec.default, { QSpec.default with ordering := ["-age"] }] 1 rfl

/-- C7: with the default threshold of 5, recording the same SQL text five
times with five distinct non-empty parameter fingerprints emits exactly
one "potential N+1" report — including across a sixth execution of the
same statement, which is deduplicated by SQL text — while recording it
five times with the same parameter value emits none. -/
theorem n_plus_one_reported_once (sql : String) (p1 p2 p3 p4 p5 : List Val)
    (h1 : fingerprint p1 ≠ "") (h2 : fingerprint p2 ≠ "")
    (h3 : fingerprint p3 ≠ "") (h4 : fingerprint p4 ≠ "")
    (h5 : fingerprint p5 ≠ "")
    (d21 : fingerprint p2 ≠ fingerprint p1)
    (d31 : fingerprint p3 ≠ fingerprint p1)
    (d32 : fingerprint p3 ≠ fingerprint p2)
    (d41 : fingerprint p4 ≠ fingerprint p1)
    (d42 : fingerprint p4 ≠ fingerprint p2)
    (d43 : fingerprint p4 ≠ fingerprint p3)
    (d51 : fingerprint p5 ≠ fingerprint p1)
    (d52 : fingerprint p5 ≠ fingerprint p2)
    (d53 : fingerprint p5 ≠ fingerprint p3)
    (d54 : fingerprint p5 ≠ fingerprint p4) :
    ((Tracker.fresh 5 5).runRecords
        [(sql, p1), (sql, p2), (sql, p3), (sql, p4), (sql, p5), (sql, p1)]).2 = 1 ∧
    ((Tracker.fresh 5 5).runRecords
        [(sql, p1), (sql, p1), (sql, p1), (sql, p1), (sql, p1)]).2 = 0 := by
  constructor
  · simp [Tracker.runRecords, Tracker.record, Tracker.shouldReport,
      QueryStat.record, Tracker.fresh, alookup, ains,
      h1, h2, h3, h4, h5, d21, d31, d32, d41, d42, d43, d51, d52, d53, d54]
  · simp [Tracker.runRecords, Tracker.record, Tracker.shouldReport,
      QueryStat.record, Tracker.fresh, alookup, ains, h1]

/-- C7 witness: five distinct string parameters against one statement
report once; five identical ones report never. -/
theorem n_plus_one_reported_once_witness :
    ((Tracker.fresh 5 5).runRecords
        [("SELECT x FROM t WHERE a = ?", [.str "a"]),
         ("SELECT x FROM t WHERE a = ?", [.str "b"]),
         ("SELECT x FROM t WHERE a = ?", [.str "c"]),
         ("SELECT x FROM t WHERE a = ?", [.str "d"]),
         ("SELECT x FROM t WHERE a = ?", [.str "e"]),
         ("SELECT x FROM t WHERE a = ?", [.str "a"])]).2 = 1 ∧
    ((Tracker.fresh 5 5).runRecords
        [("SELECT x FROM t WHERE a = ?", [.str "a"]),
         ("SELECT x FROM t WHERE a = ?", [.str "a"]),
         ("SELECT x FROM t WHERE a = ?", [.str "a"]),
         ("SELECT x FROM t WHERE a = ?", [.str "a"]),
         ("SELECT x FROM t WHERE a = ?", [.str "a"])]).2 = 0 :=
  n_plus_one_reported_once "SELECT x FROM t WHERE a = ?"
    [.str "a"] [.str "b"] [.str "c"] [.str "d"] [.str "e"]
    (by decide) (by decide) (by decide) (by decide) (by decide)
    (by decide) (by decide) (by decide) (by decide) (by decide)
    (by decide) (by decide) (by decide) (by decide) (by decide)

/-- Session-level registration calls (`add`, `delete`, `mark_dirty`)
touch only the unit of work: the transaction manager and the snapshot
stack are unchanged. -/
theorem applyRegs_preserves (ops : List RegOp) (s : SessionA) :
    (s.applyRegs ops).tm = s.tm ∧ (s.applyRegs ops).snapshots = s.snapshots := by
  induction ops generalizing s with
  | nil => exact ⟨rfl, rfl⟩
  | cons op t ih =>
      cases op with
      | regNew i => exact ih _
      | regDirty i => exact ih _
      | regDeleted i => exact ih _

/-- `Session.commit` succeeds on any session with an open frame when
every instance passes validation. -/
theorem commit_allValid_ok_of_open (s : SessionA) (top : Option Nat)
    (rest : List (Option Nat)) (h : s.tm.stack = top :: rest) :
    ∃ s' acts, SessionA.commit allValid s = .ok (s', acts) := by
  obtain ⟨s5, hf, htm5, _⟩ := flush_allValid_ok s
  have h5 : s5.tm.stack = top :: rest := by rw [htm5, h]
  have hdep : ¬ s.tm.depth = 0 := by simp [TxManager.depth, h]
  cases top with
  | none =>
      have hc : s5.tm.commit = .ok ({ s5.tm with stack := rest }, [.commitNative]) := by
        simp only [TxManager.commit, h5]
      simp only [SessionA.commit, hdep, reduceIte, ite_false, hf, hc, except_bind_ok]
      exact ⟨_, _, rfl⟩
  | some n =>
      have hc : s5.tm.commit = .ok ({ s5.tm with stack := rest },
          [.exec ("RELEASE SAVEPOINT sp_" ++ toString n)]) := by
        simp only [TxManager.commit, h5]
      simp only [SessionA.commit, hdep, reduceIte, ite_false, hf, hc, except_bind_ok]
      exact ⟨_, _, rfl⟩

/-- C1: on a session with an open outer frame (savepoints supported), a
nested `begin()` followed by any sequence of `add`/`delete`/`mark_dirty`
registrations and a `rollback()` of the inner frame restores the three
unit-of-work sets to exactly their contents at the moment of the inner
`begin()` (which `begin` left equal to the outer pending state), and the
resulting session remains committable. -/
theorem nested_rollback (s : SessionA) (ops : List RegOp)
    (hdepth : s.tm.depth ≠ 0) (hsp : s.tm.supportsSavepoints = true) :
    ∃ s1 a1 s3 a3,
      s.begin = .ok (s1, a1) ∧ s1.uow = s.uow ∧
      (SessionA.applyRegs s1 ops).rollback = .ok (s3, a3) ∧
      s3.uow = s1.uow ∧
      ∃ s4 a4, SessionA.commit allValid s3 = .ok (s4, a4) := by
  cases hst : s.tm.stack with
  | nil => exact absurd (by simp [TxManager.depth, hst]) hdepth
  | cons top rest =>
      have hb : s.begin =
          .ok (SessionA.snapshotUow { s with tm := { s.tm with
              stack := some s.tm.counter :: s.tm.stack,
              counter := s.tm.counter + 1 } },
            [.exec ("SAVEPOINT sp_" ++ toString s.tm.counter)]) := by
        simp [SessionA.begin, TxManager.begin, TxManager.depth, hst, hsp,
          except_bind_ok]
      obtain ⟨htm2, hsn2⟩ := applyRegs_preserves ops
        (SessionA.snapshotUow { s with tm := { s.tm with
            stack := some s.tm.counter :: s.tm.stack,
            counter := s.tm.counter + 1 } })
      have hr : (SessionA.applyRegs
          (SessionA.snapshotUow { s with tm := { s.tm with
              stack := some s.tm.counter :: s.tm.stack,
              counter := s.tm.counter + 1 } }) ops).rollback =
          .ok ({ uow := s.uow, snapshots := s.snapshots,
                 tm := { stack := s.tm.stack, counter := s.tm.counter + 1,
                         supportsSavepoints := s.tm.supportsSavepoints },
                 idmapValues := (SessionA.applyRegs
                   (SessionA.snapshotUow { s with tm := { s.tm with
                       stack := some s.tm.counter :: s.tm.stack,
                       counter := s.tm.counter + 1 } }) ops).idmapValues,
                 dirtyIds := (SessionA.applyRegs
                   (SessionA.snapshotUow { s with tm := { s.tm with
                       stack := some s.tm.counter :: s.tm.stack,
                       counter := s.tm.counter + 1 } }) ops).dirtyIds },
            [.exec ("ROLLBACK TO SAVEPOINT sp_" ++ toString s.tm.counter),
             .exec ("RELEASE SAVEPOINT sp_" ++ toString s.tm.counter)]) := by
        simp only [SessionA.snapshotUow] at htm2 hsn2
        simp only [SessionA.rollback, SessionA.snapshotUow, htm2,
          TxManager.rollback, SessionA.restoreUowSnapshot, hsn2,
          except_bind_ok]
      refine ⟨_, _, _, _, hb, rfl, hr, rfl, ?_⟩
      exact commit_allValid_ok_of_open _ top rest hst

/-- C2: two successive successful `Session.get(Type, pk=k)` calls with no
intervening mutation return the identical instance (the same allocation
index, i.e. reference equality) — whether the first call was served by
the identity map, the second-level cache, or the database — and the
second call touches neither the state nor the database.  Well-formedness
of the collaborators: cached payloads are stored under their own primary
key, and a `WHERE pk = k` row carries primary key `k`. -/
theorem get_identity (meta : Nat → Option String)
    (fieldExists : Nat → String → Bool)
    (db : Nat → String → Int → Option (Option Int)) (st : GetState) (T : Nat)
    (pkn : String) (k : Int) (st' : GetState) (log : List SqlQuery) (i : Nat)
    (hmeta : meta T = some pkn)
    (hc : cacheWF st) (hd : dbWF meta db)
    (hfirst : sessionGet meta fieldExists db st T [(pkn, k)] =
      (st', log, .ok (some i))) :
    sessionGet meta fieldExists db st' T [(pkn, k)] = (st', [], .ok (some i)) := by
  simp only [sessionGet, hmeta, if_pos] at hfirst ⊢
  cases hm : alookup st.idmap (T, k) with
  | some c =>
      rw [hm] at hfirst
      simp only [Prod.mk.injEq] at hfirst
      obtain ⟨h1, h2, h3⟩ := hfirst
      subst h1
      rw [hm]
      simp only [Except.ok.injEq] at h3
      rw [h3]
  | none =>
      rw [hm] at hfirst
      cases hcache : alookup st.cache (T, k) with
      | some payload =>
          rw [hcache] at hfirst
          have hp := hc T k payload hcache
          subst hp
          simp only [Prod.mk.injEq] at hfirst
          obtain ⟨h1, h2, h3⟩ := hfirst
          simp only [Except.ok.injEq] at h3
          subst h1
          rw [show alookup (ains st.idmap (T, k) st.nextInst) (T, k) =
            some st.nextInst from by simp [ains, alookup]]
          rw [h3]
      | none =>
          rw [hcache] at hfirst
          by_cases hfe : fieldExists T pkn
          · simp only [sessionGetQuery, hfe, if_pos] at hfirst
            cases hdb : db T pkn k with
            | none =>
                rw [hdb] at hfirst
                simp only [Prod.mk.injEq, Except.ok.injEq, reduceCtorEq] at hfirst
                exact hfirst.2.2.elim
            | some payload =>
                rw [hdb] at hfirst
                have hp := hd T pkn k payload hmeta hdb
                subst hp
                simp only [materialize, hmeta, hm, Prod.mk.injEq] at hfirst
                obtain ⟨h1, h2, h3⟩ := hfirst
                simp only [Except.ok.injEq] at h3
                subst h1
                rw [show alookup (ains st.idmap (T, k) st.nextInst) (T, k) =
                  some st.nextInst from by simp [ains, alookup]]
                rw [h3]
          · simp only [sessionGetQuery, hfe, if_false, Prod.mk.injEq,
              reduceCtorEq] at hfirst
            exact hfirst.2.2.elim

/-- C1 witness: outer frame open with instance 7 pending; inner begin,
`add(9)`, `delete(7)`, inner rollback. -/
theorem nested_rollback_witness :
    ∃ s1 a1 s3 a3,
      sessionOuterOpen.begin = .ok (s1, a1) ∧ s1.uow = sessionOuterOpen.uow ∧
      (SessionA.applyRegs s1 [.regNew 9, .regDeleted 7]).rollback = .ok (s3, a3) ∧
      s3.uow = s1.uow ∧
      ∃ s4 a4, SessionA.commit allValid s3 = .ok (s4, a4) :=
  nested_rollback sessionOuterOpen [.regNew 9, .regDeleted 7]
    (by decide) (by decide)

/-- C2 witness: a database-served first `get(3, id=42)` on the empty
session, then an identity-map-served second `get`. -/
theorem get_identity_witness :
    sessionGet metaOracleId fieldExistsAll dbEcho getStateAfter42 3 [("id", 42)] =
      (getStateAfter42, [], .ok (some 0)) :=
  get_identity metaOracleId fieldExistsAll dbEcho emptyGetState 3 "id" 42
    getStateAfter42 [(3, "id", 42)] 0 rfl
    (fun T k p h => by simp [emptyGetState, alookup] at h)
    (fun T pkn k payload hm hdb => by
      simp only [dbEcho, Option.some.injEq] at hdb
      exact hdb.symm)
    rfl

end BlazeORM
